import Mathlib

/-!
Verification of the capture → scoring → policy-enforcement pipeline of the
VHNSPO network-threat monitoring system.

The development shallowly embeds the relevant TypeScript components:

* `NetworkTap` (src/utils/networkTap.ts): the tcpdump line parser
  (`processPacket`) and the capture state machine (`startCapture`).
* `FeatureExtractor` / `AnomalyDetector` (anomalyDetector module):
  `extract` and the single-flight `train` state machine.
* `RouterManager` (routerManager module): `applyPolicy`,
  `generatePolicyOids`, the protocol/action lookup tables, and the
  `connect` / `handleConnectionError` retry state machine.
* `NetworkOrchestrator` (src/utils/networkOrchestrator.ts):
  `handlePacket` and `handleAnomaly`.

JavaScript regular-expression search (`String.prototype.match` with an
unanchored pattern) is embedded by scanning candidate start positions left
to right and attempting the pattern at each position.  For every pattern
used by the parser, each quantified sub-pattern (`\d+`, `\s*`, `[^\]]+`) is
followed either by a literal character outside its character class or by
the end of the pattern, so greedy matching with backtracking coincides with
deterministic maximal munch; the embedding below therefore uses maximal
munch at each start position, which is exact for these patterns.

Machine doubles only appear as scoring confidences and normalized feature
values; they are modelled as rationals (ℚ), with a `none` value standing
for JavaScript `NaN` where `undefined` flows into arithmetic.  Fallible
operations return `Except`/`Option`, and stateful methods are explicit
state-passing functions.  Remote effects (SNMP writes, the scoring
service, timers) are modelled by explicit outcome oracles.
-/

/-! ## Character classes and scanning primitives -/

/-- ASCII digit, the `\d` class of the parser's regular expressions. -/
def isDigitCh (c : Char) : Bool := c.isDigit

/-- ASCII whitespace, the `\s` class and the class removed by
`String.prototype.trim` (the non-ASCII whitespace code points also in the
JavaScript classes cannot occur in tcpdump output). -/
def isSpaceCh (c : Char) : Bool :=
  c = ' ' || c = '\t' || c = '\n' || c = '\r' || c = '\x0b' || c = '\x0c'

/-- Maximal munch: split off the longest prefix whose characters satisfy
`p` (the deterministic reading of a greedy `p*`). -/
def munch (p : Char → Bool) : List Char → List Char × List Char
  | [] => ([], [])
  | c :: t =>
    if p c then
      let r := munch p t
      (c :: r.1, r.2)
    else ([], c :: t)

/-- Greedy `p+`: like `munch` but failing on an empty match. -/
def munch1 (p : Char → Bool) (s : List Char) : Option (List Char × List Char) :=
  let r := munch p s
  if r.1.isEmpty then none else some r

/-- Consume one expected literal character. -/
def expectChar (c : Char) : List Char → Option (List Char)
  | [] => none
  | x :: t => if x = c then some t else none

/-- Consume an expected literal string. -/
def expectLit : List Char → List Char → Option (List Char)
  | [], s => some s
  | _ :: _, [] => none
  | c :: pt, x :: t => if x = c then expectLit pt t else none

/-- Unanchored leftmost search: attempt the pattern `f` at every start
position from the left, returning the first success — the semantics of an
unanchored JavaScript `match`. -/
def scanFirst (f : List Char → Option α) : List Char → Option α
  | [] => f []
  | c :: t =>
    match f (c :: t) with
    | some r => some r
    | none => scanFirst f t

/-- Numeric value of a digit string, the `parseInt(m, 10)` of the parser
(all strings it is applied to are nonempty digit runs). -/
def digitsToNat (l : List Char) : Nat :=
  l.foldl (fun n c => n * 10 + (c.toNat - '0'.toNat)) 0

/-! ## The tcpdump line parser (`NetworkTap.processPacket`) -/

/-- One dotted quad `\d+\.\d+\.\d+\.\d+`, returning the matched text and
the rest of the input. -/
def tryQuad (s : List Char) : Option (String × List Char) := do
  let (d1, s1) ← munch1 isDigitCh s
  let s2 ← expectChar '.' s1
  let (d2, s3) ← munch1 isDigitCh s2
  let s4 ← expectChar '.' s3
  let (d3, s5) ← munch1 isDigitCh s4
  let s6 ← expectChar '.' s5
  let (d4, s7) ← munch1 isDigitCh s6
  pure (String.mk (d1 ++ '.' :: d2 ++ '.' :: d3 ++ '.' :: d4), s7)

/-- The pattern `(\d+\.\d+\.\d+\.\d+)\s*>\s*(\d+\.\d+\.\d+\.\d+)` tried at
one start position ("Parse IP addresses"). -/
def tryIpPairAt (s : List Char) : Option (String × String) := do
  let (q1, s1) ← tryQuad s
  let s2 ← expectChar '>' (munch isSpaceCh s1).2
  let (q2, _) ← tryQuad (munch isSpaceCh s2).2
  pure (q1, q2)

/-- The pattern `(\d+)\.(\d+)\s*>\s*(\d+)\.(\d+)` tried at one start
position ("Parse ports for TCP/UDP"); `processPacket` reads groups 2 and 4,
so those two are returned. -/
def tryPortAt (s : List Char) : Option (Nat × Nat) := do
  let (_, s1) ← munch1 isDigitCh s
  let s2 ← expectChar '.' s1
  let (g2, s3) ← munch1 isDigitCh s2
  let s4 ← expectChar '>' (munch isSpaceCh s3).2
  let (_, s5) ← munch1 isDigitCh (munch isSpaceCh s4).2
  let s6 ← expectChar '.' s5
  let (g4, _) ← munch1 isDigitCh s6
  pure (digitsToNat g2, digitsToNat g4)

/-- The alternation `(TCP|UDP|ICMP)` tried at one start position. -/
def tryProtoAt (s : List Char) : Option String :=
  match expectLit "TCP".data s with
  | some _ => some "TCP"
  | none =>
    match expectLit "UDP".data s with
    | some _ => some "UDP"
    | none =>
      match expectLit "ICMP".data s with
      | some _ => some "ICMP"
      | none => none

/-- A literal keyword followed by `(\d+)` tried at one start position
(shared shape of the `length`, `ttl`, `win` and `cksum` patterns). -/
def tryKeyNatAt (key : String) (s : List Char) : Option Nat := do
  let s1 ← expectLit key.data s
  let (d, _) ← munch1 isDigitCh s1
  pure (digitsToNat d)

/-- The pattern `Flags \[([^\]]+)\]` tried at one start position. -/
def tryFlagsAt (s : List Char) : Option String := do
  let s1 ← expectLit "Flags [".data s
  let (f, s2) ← munch1 (fun c => c ≠ ']') s1
  let _ ← expectChar ']' s2
  pure (String.mk f)

/-- The record built by `processPacket` for one output line.  In the
source every field except the timestamp is filled in only when its pattern
matches (`Partial<PacketData>`), so every such field is optional here. -/
structure PacketData where
  timestamp : Nat
  sourceIP : Option String := none
  destIP : Option String := none
  protocol : Option String := none
  length : Option Nat := none
  sourcePort : Option Nat := none
  destPort : Option Nat := none
  flags : Option String := none
  ttl : Option Nat := none
  window : Option Nat := none
  checksum : Option Nat := none
deriving DecidableEq, Repr

/-- The per-line field accumulation of `processPacket`: each pattern is
searched independently on the whole line and the successful matches fill
the corresponding fields (the timestamp is `Date.now()`, passed in as
`now`). -/
def parseFields (now : Nat) (line : String) : PacketData :=
  let cs := line.data
  let ip := scanFirst tryIpPairAt cs
  let ports := scanFirst tryPortAt cs
  { timestamp := now
    sourceIP := ip.map Prod.fst
    destIP := ip.map Prod.snd
    protocol := scanFirst tryProtoAt cs
    length := scanFirst (tryKeyNatAt "length ") cs
    sourcePort := ports.map Prod.fst
    destPort := ports.map Prod.snd
    flags := scanFirst tryFlagsAt cs
    ttl := scanFirst (tryKeyNatAt "ttl ") cs
    window := scanFirst (tryKeyNatAt "win ") cs
    checksum := scanFirst (tryKeyNatAt "cksum ") cs }

/-- Whether some field other than the timestamp is populated — the
source's emission guard `Object.keys(packet).length > 1`, since exactly
the matched patterns add keys beyond `timestamp`. -/
def hasExtraField (p : PacketData) : Bool :=
  p.sourceIP.isSome || p.destIP.isSome || p.protocol.isSome ||
  p.length.isSome || p.sourcePort.isSome || p.destPort.isSome ||
  p.flags.isSome || p.ttl.isSome || p.window.isSome || p.checksum.isSome

/-- Whether `line.trim()` is empty, i.e. the line is all whitespace. -/
def lineBlank (line : String) : Bool := line.data.all isSpaceCh

/-- Processing of one line of tcpdump output: blank lines are skipped
(`if (!line.trim()) continue`), and the accumulated record is emitted only
when more than the timestamp is populated. -/
def emitLine (now : Nat) (line : String) : Option PacketData :=
  if lineBlank line then none
  else
    let p := parseFields now line
    if hasExtraField p then some p else none

/-- `String.prototype.split('\n')` on the character list: split into
segments at every newline (adjacent separators give empty segments, and
the empty input gives one empty segment, as in JavaScript). -/
def splitLines : List Char → List (List Char)
  | [] => [[]]
  | c :: t =>
    let r := splitLines t
    if c = '\n' then [] :: r
    else
      match r with
      | [] => [[c]]
      | l :: ls => (c :: l) :: ls

/-- `processPacket` over one chunk of tcpdump output: split on newlines
and emit per line, preserving order. -/
def processPacket (now : Nat) (chunk : String) : List PacketData :=
  (splitLines chunk.data).filterMap (fun cs => emitLine now (String.mk cs))

/-! ## Capture session state (`NetworkTap.startCapture`) -/

/-- The capture-relevant state of a `NetworkTap`: the `isCapturing` flag
and the spawned tcpdump process handle. -/
structure TapState where
  isCapturing : Bool
  tcpdumpProcess : Option Nat
deriving DecidableEq, Repr

/-- `startCapture`: throws `'Capture is already running'` before touching
any state when a capture is running; otherwise spawns the process (handle
`proc`) and sets the flag. -/
def startCapture (proc : Nat) (s : TapState) : Except String Unit × TapState :=
  if s.isCapturing then (Except.error "Capture is already running", s)
  else (Except.ok (), { isCapturing := true, tcpdumpProcess := some proc })

/-! ## Feature extraction (`FeatureExtractor.extract`) -/

/-- A JavaScript numeric value: `some q` for an ordinary number, `none`
for `NaN` (which arises when `undefined` flows into arithmetic). -/
abbrev JSNum := Option ℚ

/-- JavaScript addition on numbers: `NaN` is absorbing. -/
def jsAdd : JSNum → JSNum → JSNum
  | some a, some b => some (a + b)
  | _, _ => none

/-- Division by a fixed nonzero constant: `NaN` propagates. -/
def jsDivC (x : JSNum) (c : ℚ) : JSNum := x.map (· / c)

/-- `Number(s)` for the strings produced by splitting an address on `'.'`:
the empty string converts to `0`, a digit run to its value, anything else
to `NaN` (signs, exponents and fractions never survive the `'.'` split of
the address strings this is applied to). -/
def jsNumberOfString (s : String) : JSNum :=
  if s.isEmpty then some 0
  else if s.data.all isDigitCh then some ((digitsToNat s.data : ℕ) : ℚ)
  else none

/-- `extractIPFeatures`: split the address on `'.'`, convert each
component with `Number`, sum from `0`, and normalize by `255 * 4 = 1020`. -/
def extractIPFeatures (ip : String) : JSNum :=
  jsDivC ((ip.splitOn ".").foldl (fun acc c => jsAdd acc (jsNumberOfString c)) (some 0)) 1020

/-- `extractTimeFeatures`: the hour of day of the timestamp (milliseconds),
normalized by 24.  `Date.prototype.getHours` is taken at UTC; the host
timezone offset is a fixed shift which no property here inspects. -/
def extractTimeFeatures (timestamp : Nat) : JSNum :=
  some (((timestamp / 3600000) % 24 : ℕ) / 24)

/-- The fixed protocol vocabulary of the one-hot encoding. -/
def protocolVocab : List String := ["TCP", "UDP", "ICMP", "HTTP", "HTTPS"]

/-- The declared feature count of the extractor (`featureCount = 10`,
returned by `getFeatureCount`). -/
def featureCount : Nat := 10

/-- `FeatureExtractor.extract`.  Pushes the normalized length, five
protocol one-hot indicators, the normalized hour, and one scalar per
address.  `extractIPFeatures` calls `.split` on the address, so a record
whose `sourceIP` or `destIP` is absent makes the call throw a `TypeError`
(`none` here); an absent `length` merely yields `NaN` for the first
element. -/
def extract (p : PacketData) : Option (List JSNum) :=
  match p.sourceIP, p.destIP with
  | some s, some d =>
    some (jsDivC (p.length.map (fun n => (n : ℚ))) 1500 ::
      (protocolVocab.map fun pr => (if p.protocol = some pr then some 1 else some 0 : JSNum)) ++
      [extractTimeFeatures p.timestamp, extractIPFeatures s, extractIPFeatures d])
  | _, _ => none

/-! ## Anomaly detector training (`AnomalyDetector.train`) -/

/-- The training-relevant state of an `AnomalyDetector`: the single-flight
`isTraining` latch, `lastTrainingTime` (`0`, i.e. `none` here, until a
success), and the emitted `trainingComplete` events. -/
structure DetectorState where
  isTraining : Bool
  lastTrainingTime : Option Nat
  events : List String
deriving DecidableEq, Repr

/-- The synchronous prefix of `train()`: throw
`'Training already in progress'` (before touching any state) when a call
is in flight, otherwise set the latch and issue the remote request. -/
def trainStart (s : DetectorState) : Except String Unit × DetectorState :=
  if s.isTraining then (Except.error "Training already in progress", s)
  else (Except.ok (), { s with isTraining := true })

/-- The completion of an in-flight `train()` call whose remote request
succeeded (`ok = true`, at time `t`) or failed: on success record the
last-training time and emit `trainingComplete`; on failure surface the
error (result `false`) with no event and no recorded time; the `finally`
block clears the latch either way. -/
def trainFinish (ok : Bool) (t : Nat) (s : DetectorState) : DetectorState × Bool :=
  if ok then
    ({ isTraining := false, lastTrainingTime := some t,
       events := s.events ++ ["trainingComplete"] }, true)
  else ({ s with isTraining := false }, false)

/-! ## Router manager policies (`RouterManager.applyPolicy`) -/

/-- The SNMP value-type tags used by `generatePolicyOids`
(`snmp.ObjectType.OctetString` and `snmp.ObjectType.Integer`). -/
inductive SnmpType where
  | octetString
  | integer
deriving DecidableEq, Repr

/-- An SNMP value: a string or an integer. -/
inductive SnmpVal where
  | str (s : String)
  | int (n : Int)
deriving DecidableEq, Repr

/-- One varbind of an SNMP SET operation. -/
structure Varbind where
  oid : String
  vtype : SnmpType
  value : SnmpVal
deriving DecidableEq, Repr

/-- One rule of a `NetworkPolicy`. -/
structure PolicyRule where
  sourceIP : Option String := none
  destIP : Option String := none
  protocol : Option String := none
  port : Option Nat := none
  action : String
  limit : Option Nat := none
deriving DecidableEq, Repr

/-- A `NetworkPolicy`: identifier, display name, kind, ordered rules,
enabled flag. -/
structure NetworkPolicy where
  id : String
  name : String
  ptype : String
  rules : List PolicyRule
  enabled : Bool
deriving DecidableEq, Repr

/-- JavaScript truthiness of an optional string (`undefined` and `''` are
falsy), as tested by `if (rule.sourceIP)` etc. -/
def truthyStr : Option String → Bool
  | some s => !s.isEmpty
  | none => false

/-- JavaScript truthiness of an optional number (`undefined` and `0` are
falsy), as tested by `if (rule.port)`. -/
def truthyNat : Option Nat → Bool
  | some n => n != 0
  | none => false

/-- `getProtocolNumber`: fixed uppercased lookup TCP=6, UDP=17, ICMP=1,
anything else 0. -/
def getProtocolNumber (protocol : String) : Nat :=
  let up := protocol.toUpper
  if up = "TCP" then 6 else if up = "UDP" then 17 else if up = "ICMP" then 1 else 0

/-- `getActionNumber`: fixed lowercased lookup allow=1, deny=2, limit=3,
anything else 0. -/
def getActionNumber (action : String) : Nat :=
  let lo := action.toLower
  if lo = "allow" then 1 else if lo = "deny" then 2 else if lo = "limit" then 3 else 0

/-- `generatePolicyOids`: the varbinds of the single SNMP SET issued for
one rule — address, protocol and port varbinds conditionally on the
(truthy) presence of the rule field, always followed by the action
varbind. -/
def generatePolicyOids (rule : PolicyRule) : List Varbind :=
  (if truthyStr rule.sourceIP then
    [⟨"1.3.6.1.2.1.4.20.1.1", SnmpType.octetString, SnmpVal.str (rule.sourceIP.getD "")⟩]
  else []) ++
  (if truthyStr rule.destIP then
    [⟨"1.3.6.1.2.1.4.20.1.2", SnmpType.octetString, SnmpVal.str (rule.destIP.getD "")⟩]
  else []) ++
  (if truthyStr rule.protocol then
    [⟨"1.3.6.1.2.1.4.21.1.9", SnmpType.integer,
      SnmpVal.int (getProtocolNumber (rule.protocol.getD ""))⟩]
  else []) ++
  (if truthyNat rule.port then
    [⟨"1.3.6.1.2.1.6.13.1.3", SnmpType.integer, SnmpVal.int (rule.port.getD 0)⟩]
  else []) ++
  [⟨"1.3.6.1.2.1.4.21.1.13", SnmpType.integer, SnmpVal.int (getActionNumber rule.action)⟩]

/-- The rule loop of `applyPolicy`: issue one `snmpSet` per rule, in rule
order.  `dev k` tells whether the SET for the rule at (0-based) index `k`
succeeds.  Returns the varbind lists of the SETs actually issued, in
order, and whether all of them succeeded; the first failure aborts the
loop (the failing SET was issued) and the error propagates. -/
def applyRules (dev : Nat → Bool) (k : Nat) : List PolicyRule → List (List Varbind) × Bool
  | [] => ([], true)
  | r :: rs =>
    let w := generatePolicyOids r
    if dev k then
      let rest := applyRules dev (k + 1) rs
      (w :: rest.1, rest.2)
    else ([w], false)

/-- The observable outcome of one `applyPolicy` call. -/
structure ApplyOutcome where
  /-- Varbind lists of the SNMP SET operations issued, in issue order. -/
  writes : List (List Varbind)
  /-- Whether the call returned normally (`false` = it threw). -/
  ok : Bool
  /-- The in-memory policy store (keyed by identifier) after the call. -/
  policies : String → Option NetworkPolicy
  /-- What `savePolicies` wrote to storage, `none` if it was not called. -/
  stored : Option (String → Option NetworkPolicy)
  /-- Events emitted by the call. -/
  events : List String

/-- `RouterManager.applyPolicy`: throw when not connected; otherwise issue
the rules' SETs sequentially in rule order, aborting on the first failure
with no rollback of already-issued writes and with the store untouched;
only when every SET succeeded, upsert the policy into the store by its
identifier, synchronously persist the store, and emit `policyApplied`. -/
def applyPolicy (isConnected : Bool) (dev : Nat → Bool) (policy : NetworkPolicy)
    (store : String → Option NetworkPolicy) : ApplyOutcome :=
  if isConnected then
    let run := applyRules dev 0 policy.rules
    if run.2 then
      let store2 := fun pid => if pid = policy.id then some policy else store pid
      ⟨run.1, true, store2, some store2, ["policyApplied " ++ policy.id]⟩
    else ⟨run.1, false, store, none, []⟩
  else ⟨[], false, store, none, []⟩

/-! ## Router manager connection retry
(`RouterManager.connect` / `handleConnectionError`) -/

/-- `maxReconnectAttempts`. -/
def maxReconnectAttempts : Nat := 5

/-- `reconnectDelay` in milliseconds. -/
def reconnectDelay : Nat := 5000

/-- The retry-relevant state of a `RouterManager`: the connected flag, the
consecutive-failure counter, the delay of a pending `setTimeout(connect)`
if one is scheduled, and the number of terminal `error` events emitted. -/
structure RMState where
  isConnected : Bool
  reconnectAttempts : Nat
  pendingRetryDelay : Option Nat
  errorEvents : Nat
deriving DecidableEq, Repr

/-- `handleConnectionError`: clear the connected flag and increment the
failure counter; while the counter is at most `maxReconnectAttempts`,
schedule another `connect()` after `reconnectDelay`; once it exceeds the
maximum, emit the terminal error event and schedule nothing. -/
def handleConnectionError (s : RMState) : RMState :=
  let a := s.reconnectAttempts + 1
  if a ≤ maxReconnectAttempts then
    { isConnected := false, reconnectAttempts := a,
      pendingRetryDelay := some reconnectDelay, errorEvents := s.errorEvents }
  else
    { isConnected := false, reconnectAttempts := a,
      pendingRetryDelay := none, errorEvents := s.errorEvents + 1 }

/-- One execution of `connect()` (initial or fired from a scheduled
retry, which consumes the pending timer): a no-op when already connected;
on success (`ok`) set the connected flag and reset the failure counter to
zero; on failure defer to `handleConnectionError`. -/
def connectStep (ok : Bool) (s : RMState) : RMState :=
  let s0 := { s with pendingRetryDelay := none }
  if s0.isConnected then s0
  else if ok then { s0 with isConnected := true, reconnectAttempts := 0 }
  else handleConnectionError s0

/-- The initial state of a fresh `RouterManager`. -/
def rmInitial : RMState :=
  { isConnected := false, reconnectAttempts := 0, pendingRetryDelay := none, errorEvents := 0 }

/-- The state after `n` consecutive failing `connect()` attempts starting
from a fresh manager. -/
def failStreak (n : Nat) : RMState := (connectStep false)^[n] rmInitial

/-! ## Orchestrator response policy
(`NetworkOrchestrator.handlePacket` / `handleAnomaly`) -/

/-- A scoring result as returned by `detectAnomaly`. -/
structure ScoreResult where
  isAnomaly : Bool
  confidence : ℚ
  ctype : String
  details : String
deriving DecidableEq, Repr

/-- A response action invoked on the router manager. -/
inductive RouterAction where
  | blockIP (ip : Option String)
  | setBandwidthLimit (ip : Option String) (mbps : Nat)
deriving DecidableEq, Repr

/-- An event emitted by the orchestrator's anomaly path. -/
inductive OrchEvent where
  | anomaly (confidence : ℚ) (srcIP : Option String)
deriving DecidableEq, Repr

/-- The default anomaly threshold (`config.anomalyThreshold || 0.8` with
no configured value). -/
def defaultAnomalyThreshold : ℚ := 8/10

/-- `handleAnomaly`: inside one try/catch, fetch router stats (`statsOk`
tells whether `getStats` succeeds), then select the response by confidence
tier — block the source address when confidence > 0.9, apply the 1 Mbps
bandwidth limit when confidence > 0.8 — then emit the `anomaly` event.
Any throw (a failing stats fetch, or a failing action call, `actionOk`)
is caught and ends the handler, skipping everything after the throw.
Returns the router actions invoked and the events emitted. -/
def handleAnomaly (statsOk actionOk : Bool) (confidence : ℚ) (srcIP : Option String) :
    List RouterAction × List OrchEvent :=
  if !statsOk then ([], [])
  else
    let acts : List RouterAction :=
      if confidence > 9/10 then [RouterAction.blockIP srcIP]
      else if confidence > 8/10 then [RouterAction.setBandwidthLimit srcIP 1]
      else []
    if acts.isEmpty || actionOk then (acts, [OrchEvent.anomaly confidence srcIP])
    else (acts, [])

/-- The anomaly-response part of `handlePacket`: with `result` the outcome
of `detectAnomaly` (`none` when it threw, which the catch swallows),
invoke `handleAnomaly` exactly when the score is an anomaly with
confidence at least the threshold; `some r` records that `handleAnomaly`
ran with outcome `r`. -/
def handlePacket (result : Option ScoreResult) (threshold : ℚ) (statsOk actionOk : Bool)
    (srcIP : Option String) : Option (List RouterAction × List OrchEvent) :=
  match result with
  | none => none
  | some res =>
    if res.isAnomaly = true ∧ threshold ≤ res.confidence then
      some (handleAnomaly statsOk actionOk res.confidence srcIP)
    else none

/-! Concrete instances used to instantiate theorems with hypotheses -/

/-- A concrete three-rule policy for instantiating the `applyPolicy`
theorems. -/
def samplePolicy : NetworkPolicy :=
  { id := "p1", name := "sample", ptype := "firewall",
    rules :=
      [{ sourceIP := some "10.0.0.5", action := "deny" },
       { destIP := some "10.0.0.9", protocol := some "TCP", port := some 80,
         action := "limit", limit := some 1 },
       { action := "allow" }],
    enabled := true }

/-- A device oracle under which every SNMP SET succeeds. -/
def sampleDevOk : Nat → Bool := fun _ => true

/-- A device oracle under which the SET for the rule at index 1 fails. -/
def sampleDevFail1 : Nat → Bool := fun k => k != 1

/-- The empty policy store. -/
def emptyStore : String → Option NetworkPolicy := fun _ => none

/-! ## Helper lemmas: no parser pattern matches whitespace-only input -/

theorem isSpaceCh_not_digit (c : Char) (h : isSpaceCh c = true) : isDigitCh c = false := by
  simp only [isSpaceCh, Bool.or_eq_true, decide_eq_true_eq] at h
  rcases h with ((((h | h) | h) | h) | h) | h <;> subst h <;> decide

theorem munch1_digit_space (s : List Char) (hs : s.all isSpaceCh = true) :
    munch1 isDigitCh s = none := by
  cases s with
  | nil => rfl
  | cons c t =>
    simp only [List.all_cons, Bool.and_eq_true] at hs
    simp [munch1, munch, isSpaceCh_not_digit c hs.1]

theorem expectLit_space_head (c : Char) (pt : List Char) (s : List Char)
    (hc : isSpaceCh c = false) (hs : s.all isSpaceCh = true) :
    expectLit (c :: pt) s = none := by
  cases s with
  | nil => rfl
  | cons x t =>
    simp only [List.all_cons, Bool.and_eq_true] at hs
    have hxc : x ≠ c := by
      intro he
      rw [he, hc] at hs
      exact absurd hs.1 (by simp)
    simp [expectLit, hxc]

theorem tryQuad_space (s : List Char) (hs : s.all isSpaceCh = true) : tryQuad s = none := by
  simp [tryQuad, munch1_digit_space s hs]

theorem tryIpPairAt_space (s : List Char) (hs : s.all isSpaceCh = true) :
    tryIpPairAt s = none := by
  simp [tryIpPairAt, tryQuad_space s hs]

theorem tryPortAt_space (s : List Char) (hs : s.all isSpaceCh = true) : tryPortAt s = none := by
  simp [tryPortAt, munch1_digit_space s hs]

theorem tryProtoAt_space (s : List Char) (hs : s.all isSpaceCh = true) : tryProtoAt s = none := by
  have h1 : expectLit "TCP".data s = none := expectLit_space_head 'T' ['C', 'P'] s (by decide) hs
  have h2 : expectLit "UDP".data s = none := expectLit_space_head 'U' ['D', 'P'] s (by decide) hs
  have h3 : expectLit "ICMP".data s = none :=
    expectLit_space_head 'I' ['C', 'M', 'P'] s (by decide) hs
  simp [tryProtoAt, h1, h2, h3]

theorem tryKeyNatAt_space (key : String) (c : Char) (pt : List Char) (hkey : key.data = c :: pt)
    (hc : isSpaceCh c = false) (s : List Char) (hs : s.all isSpaceCh = true) :
    tryKeyNatAt key s = none := by
  simp [tryKeyNatAt, hkey, expectLit_space_head c pt s hc hs]

theorem tryFlagsAt_space (s : List Char) (hs : s.all isSpaceCh = true) : tryFlagsAt s = none := by
  have h1 : expectLit "Flags [".data s = none :=
    expectLit_space_head 'F' ['l', 'a', 'g', 's', ' ', '['] s (by decide) hs
  simp [tryFlagsAt, h1]

theorem scanFirst_space {α : Type} (f : List Char → Option α)
    (hf : ∀ t : List Char, t.all isSpaceCh = true → f t = none) :
    ∀ s : List Char, s.all isSpaceCh = true → scanFirst f s = none := by
  intro s
  induction s with
  | nil => intro _; simpa [scanFirst] using hf [] rfl
  | cons c t ih =>
    intro hs
    have h1 : f (c :: t) = none := hf _ hs
    have h2 : t.all isSpaceCh = true := by
      simp only [List.all_cons, Bool.and_eq_true] at hs
      exact hs.2
    simp [scanFirst, h1, ih h2]

theorem parseFields_blank (now : Nat) (line : String) (h : lineBlank line = true) :
    parseFields now line = { timestamp := now } := by
  have hs : line.data.all isSpaceCh = true := h
  simp [parseFields,
    scanFirst_space tryIpPairAt tryIpPairAt_space line.data hs,
    scanFirst_space tryPortAt tryPortAt_space line.data hs,
    scanFirst_space tryProtoAt tryProtoAt_space line.data hs,
    scanFirst_space (tryKeyNatAt "length ")
      (tryKeyNatAt_space "length " 'l' ['e', 'n', 'g', 't', 'h', ' '] (by decide) (by decide))
      line.data hs,
    scanFirst_space tryFlagsAt tryFlagsAt_space line.data hs,
    scanFirst_space (tryKeyNatAt "ttl ")
      (tryKeyNatAt_space "ttl " 't' ['t', 'l', ' '] (by decide) (by decide)) line.data hs,
    scanFirst_space (tryKeyNatAt "win ")
      (tryKeyNatAt_space "win " 'w' ['i', 'n', ' '] (by decide) (by decide)) line.data hs,
    scanFirst_space (tryKeyNatAt "cksum ")
      (tryKeyNatAt_space "cksum " 'c' ['k', 's', 'u', 'm', ' '] (by decide) (by decide))
      line.data hs]

/-! ## Claim C3 -/

/-- Claim C3 (evaluation at the claimed input): on the capture line
`"10.0.0.5.4000 > 10.0.0.9.80: Flags [S], length 1500"` the parser emits
exactly one record, with protocol unset, length 1500 and flags `"S"` as
the claim states — but its `sourceIP` is `"0.0.5.4000"` (not
`"10.0.0.5"`) and its `destPort` is `0` (not `80`): the leftmost match of
the address pattern starts inside `10.0.0.5.4000`, and group 4 of the
port pattern captures only the first octet of the destination address
tail. -/
theorem processPacket_tcpdump_line :
    processPacket 0 "10.0.0.5.4000 > 10.0.0.9.80: Flags [S], length 1500" =
      [{ timestamp := 0, sourceIP := some "0.0.5.4000", destIP := some "10.0.0.9",
         protocol := none, length := some 1500, sourcePort := some 4000,
         destPort := some 0, flags := some "S", ttl := none, window := none,
         checksum := none }] := by
  decide

/-! ## Claim C4 -/

/-- Claim C4: a PacketRecord is emitted for a line if and only if at
least one field besides the timestamp was parsed from it; in particular a
line on which none of the address, protocol, length, port, flag, ttl, win
or cksum patterns matches yields no record. -/
theorem emit_iff_field_beyond_timestamp (now : Nat) (line : String) :
    ((emitLine now line).isSome ↔ hasExtraField (parseFields now line) = true) ∧
    (scanFirst tryIpPairAt line.data = none →
      scanFirst tryProtoAt line.data = none →
      scanFirst (tryKeyNatAt "length ") line.data = none →
      scanFirst tryPortAt line.data = none →
      scanFirst tryFlagsAt line.data = none →
      scanFirst (tryKeyNatAt "ttl ") line.data = none →
      scanFirst (tryKeyNatAt "win ") line.data = none →
      scanFirst (tryKeyNatAt "cksum ") line.data = none →
      emitLine now line = none) := by
  constructor
  · by_cases hb : lineBlank line = true
    · simp [emitLine, hb, parseFields_blank now line hb, hasExtraField]
    · simp only [Bool.not_eq_true] at hb
      simp only [emitLine, hb, Bool.false_eq_true, if_false]
      by_cases he : hasExtraField (parseFields now line) = true
      · simp [he]
      · simp only [Bool.not_eq_true] at he
        simp [he]
  · intro h1 h2 h3 h4 h5 h6 h7 h8
    have hfield : hasExtraField (parseFields now line) = false := by
      simp [parseFields, hasExtraField, h1, h2, h3, h4, h5, h6, h7, h8]
    simp [emitLine, hfield]

/-- Witness for C4: the tokenless line `"hello"` yields no record. -/
theorem emit_iff_field_beyond_timestamp_wit : emitLine 0 "hello" = none :=
  (emit_iff_field_beyond_timestamp 0 "hello").2 (by decide) (by decide) (by decide) (by decide)
    (by decide) (by decide) (by decide) (by decide)

/-! ## Claim C5 -/

/-- Claim C5 counterexample: the line `"1.2 > 3.4"` matches only the
port-pair pattern (no address pair is found, `sourceIP`/`destIP` are
unset), yet the emitted record carries `sourcePort = 2` and
`destPort = 4` — the port pattern is not gated on the address pair. -/
theorem ports_without_address_pair_cex :
    (emitLine 0 "1.2 > 3.4").map (fun p => (p.sourceIP, p.destIP, p.sourcePort, p.destPort)) =
      some (none, none, some 2, some 4) := by
  decide

/-- Claim C5 (amended): the port fields are determined by the port-pair
pattern alone, independently of the address pair: when the port pattern
finds no match the record has no port fields, and when it matches with
groups `(a, b)` a record is emitted whose `sourcePort` is `a` and
`destPort` is `b`, its `sourceIP` being whatever the separate address
search produced (possibly nothing). -/
theorem ports_from_port_pattern (now : Nat) (line : String) :
    (scanFirst tryPortAt line.data = none →
      (parseFields now line).sourcePort = none ∧ (parseFields now line).destPort = none) ∧
    (∀ a b : Nat, scanFirst tryPortAt line.data = some (a, b) →
      ∃ p : PacketData, emitLine now line = some p ∧ p.sourcePort = some a ∧
        p.destPort = some b ∧ p.sourceIP = (scanFirst tryIpPairAt line.data).map Prod.fst) := by
  constructor
  · intro h
    simp [parseFields, h]
  · intro a b h
    have hnb : lineBlank line = false := by
      by_contra hb
      simp only [Bool.not_eq_false] at hb
      rw [scanFirst_space tryPortAt tryPortAt_space line.data hb] at h
      exact absurd h (by simp)
    have hextra : hasExtraField (parseFields now line) = true := by
      simp [hasExtraField, parseFields, h]
    refine ⟨parseFields now line, ?_, ?_, ?_, ?_⟩
    · simp [emitLine, hnb, hextra]
    · simp [parseFields, h]
    · simp [parseFields, h]
    · simp [parseFields]

/-- Witness for the amended C5 on the line `"7.8 > 9.10"`. -/
theorem ports_from_port_pattern_wit :
    ∃ p : PacketData, emitLine 0 "7.8 > 9.10" = some p ∧ p.sourcePort = some 8 ∧
      p.destPort = some 10 ∧
      p.sourceIP = (scanFirst tryIpPairAt "7.8 > 9.10".data).map Prod.fst :=
  (ports_from_port_pattern 0 "7.8 > 9.10").2 8 10 (by decide)

/-! ## Claim C6 -/

/-- Claim C6 counterexample: `extract` on a fully populated packet
returns 9 features, not the declared `featureCount` of 10, and it fails
(a `TypeError` from `.split` on `undefined`) on a record whose source
address is absent. -/
theorem extract_arity_cex :
    ((extract
        { timestamp := 0, sourceIP := some "10.0.0.1", destIP := some "10.0.0.2",
          protocol := some "TCP", length := some 100 }).map List.length ≠ some featureCount) ∧
    extract { timestamp := 0, destIP := some "10.0.0.2" } = none := by
  exact ⟨by decide, rfl⟩

/-- Claim C6 (amended): `extract` is a pure deterministic function; on
every packet whose source and destination addresses are both present it
returns a feature vector of fixed length 9 (normalized length, five
protocol one-hot indicators, normalized hour, two address scalars), and
on a packet lacking either address it throws instead of returning a
vector. -/
theorem extract_fixed_arity (p : PacketData) :
    ((p.sourceIP = none ∨ p.destIP = none) → extract p = none) ∧
    (∀ s d : String, p.sourceIP = some s → p.destIP = some d →
      (extract p).map List.length = some 9) := by
  constructor
  · intro h
    rcases h with h | h
    · simp [extract, h]
    · cases hs : p.sourceIP <;> simp [extract, h, hs]
  · intro s d hs hd
    simp [extract, hs, hd, protocolVocab]

/-- Witness for the amended C6. -/
theorem extract_fixed_arity_wit :
    (extract { timestamp := 5, destIP := some "8.8.8.8" } = none) ∧
    ((extract
        { timestamp := 5, sourceIP := some "192.168.0.1", destIP := some "8.8.8.8",
          protocol := some "UDP", length := some 60 }).map List.length = some 9) :=
  ⟨(extract_fixed_arity _).1 (Or.inl rfl),
   (extract_fixed_arity _).2 "192.168.0.1" "8.8.8.8" rfl rfl⟩

/-! ## Claim C7 -/

/-- Claim C7: `train` fails fast with `TrainingInProgress` and leaves the
whole state unchanged when a call is in flight (so it neither cancels nor
alters the outcome of the in-flight call, and records no last-trained
time); from an idle state it starts, and a second call during the flight
fails while the flight's state is untouched; a successful completion
records the last-trained time and emits the completion event, a failed
one surfaces the error with no event and no recorded time. -/
theorem train_single_flight :
    (∀ s : DetectorState, s.isTraining = true →
      trainStart s = (Except.error "Training already in progress", s)) ∧
    (∀ s : DetectorState, s.isTraining = false →
      trainStart s = (Except.ok (), { s with isTraining := true }) ∧
      trainStart { s with isTraining := true } =
        (Except.error "Training already in progress", { s with isTraining := true })) ∧
    (∀ (s : DetectorState) (t : Nat),
      trainFinish true t s =
        ({ isTraining := false, lastTrainingTime := some t,
           events := s.events ++ ["trainingComplete"] }, true)) ∧
    (∀ (s : DetectorState) (t : Nat),
      trainFinish false t s = ({ s with isTraining := false }, false)) := by
  refine ⟨?_, ?_, ?_, ?_⟩
  · intro s h
    simp [trainStart, h]
  · intro s h
    constructor <;> simp [trainStart, h]
  · intro s t
    simp [trainFinish]
  · intro s t
    simp [trainFinish]

/-- Witness for C7: a second `train` during an in-flight call fails with
the in-flight state intact. -/
theorem train_single_flight_wit :
    trainStart { isTraining := true, lastTrainingTime := none, events := [] } =
      (Except.error "Training already in progress",
       { isTraining := true, lastTrainingTime := none, events := [] }) :=
  train_single_flight.1 _ rfl

/-! ## Claim C8 -/

/-- Claim C8: `startCapture` on a running adapter fails with
`AlreadyCapturing` and the session state — including the original capture
process handle — is unchanged; in particular starting twice from a
stopped adapter succeeds once and then fails, keeping the first process. -/
theorem startCapture_already_running :
    (∀ (s : TapState) (p : Nat), s.isCapturing = true →
      startCapture p s = (Except.error "Capture is already running", s)) ∧
    (∀ p₁ p₂ : Nat,
      (startCapture p₁ ⟨false, none⟩).1 = Except.ok () ∧
      startCapture p₂ (startCapture p₁ ⟨false, none⟩).2 =
        (Except.error "Capture is already running", ⟨true, some p₁⟩)) := by
  refine ⟨?_, ?_⟩
  · intro s p h
    simp [startCapture, h]
  · intro p₁ p₂
    exact ⟨rfl, rfl⟩

/-- Witness for C8. -/
theorem startCapture_already_running_wit :
    startCapture 7 ⟨true, some 3⟩ =
      (Except.error "Capture is already running", ⟨true, some 3⟩) :=
  startCapture_already_running.1 ⟨true, some 3⟩ 7 rfl

/-! ## Claim C1 -/

theorem applyRules_ok (dev : Nat → Bool) :
    ∀ (rules : List PolicyRule) (k : Nat),
      (∀ i, i < rules.length → dev (k + i) = true) →
      applyRules dev k rules = (rules.map generatePolicyOids, true) := by
  intro rules
  induction rules with
  | nil => intro k _; rfl
  | cons r rs ih =>
    intro k h
    have h0 : dev k = true := by simpa using h 0 (by simp)
    have hrest : ∀ i, i < rs.length → dev (k + 1 + i) = true := by
      intro i hi
      have e : k + 1 + i = k + (i + 1) := by omega
      rw [e]
      exact h (i + 1) (by simpa using Nat.succ_lt_succ hi)
    simp [applyRules, h0, ih (k + 1) hrest]

theorem applyRules_fail (dev : Nat → Bool) :
    ∀ (rules : List PolicyRule) (k j : Nat), j < rules.length → dev (k + j) = false →
      (∀ i, i < j → dev (k + i) = true) →
      applyRules dev k rules = ((rules.take (j + 1)).map generatePolicyOids, false) := by
  intro rules
  induction rules with
  | nil => intro k j hj _ _; exact absurd hj (by simp)
  | cons r rs ih =>
    intro k j hj hf hok
    cases j with
    | zero =>
      have h0 : dev k = false := by simpa using hf
      simp [applyRules, h0]
    | succ j' =>
      have h0 : dev k = true := by simpa using hok 0 (Nat.succ_pos j')
      have hf' : dev (k + 1 + j') = false := by
        have e : k + 1 + j' = k + (j' + 1) := by omega
        rw [e]
        exact hf
      have hok' : ∀ i, i < j' → dev (k + 1 + i) = true := by
        intro i hi
        have e : k + 1 + i = k + (i + 1) := by omega
        rw [e]
        exact hok (i + 1) (Nat.succ_lt_succ hi)
      have hj' : j' < rs.length := by simpa using hj
      simp [applyRules, h0, ih (k + 1) j' hj' hf' hok']

/-- Claim C1: on a connected session, `applyPolicy` issues the rules'
device writes sequentially in rule order.  If every write succeeds, the
issued writes are exactly the rules' varbind lists in order, the policy is
upserted into the store by its identifier, the store is synchronously
persisted, and `policyApplied` is emitted.  If the write for the rule at
index `k` is the first to fail, exactly the writes for rules `0..k` were
issued (those before `k` are not rolled back), the store is untouched,
nothing is persisted, no event is emitted, and the call fails. -/
theorem applyPolicy_rule_order (dev : Nat → Bool) (policy : NetworkPolicy)
    (store : String → Option NetworkPolicy) :
    ((∀ i, i < policy.rules.length → dev i = true) →
      applyPolicy true dev policy store =
        ⟨policy.rules.map generatePolicyOids, true,
         fun pid => if pid = policy.id then some policy else store pid,
         some (fun pid => if pid = policy.id then some policy else store pid),
         ["policyApplied " ++ policy.id]⟩) ∧
    (∀ k, k < policy.rules.length → dev k = false → (∀ i, i < k → dev i = true) →
      applyPolicy true dev policy store =
        ⟨(policy.rules.take (k + 1)).map generatePolicyOids, false, store, none, []⟩) := by
  constructor
  · intro h
    have hr : applyRules dev 0 policy.rules = (policy.rules.map generatePolicyOids, true) :=
      applyRules_ok dev policy.rules 0 (by intro i hi; simpa using h i hi)
    simp [applyPolicy, hr]
  · intro k hk hf hok
    have hr : applyRules dev 0 policy.rules =
        ((policy.rules.take (k + 1)).map generatePolicyOids, false) :=
      applyRules_fail dev policy.rules 0 k hk (by simpa using hf)
        (by intro i hi; simpa using hok i hi)
    simp [applyPolicy, hr]

/-- Witness for C1: with every write succeeding the sample policy is
applied and stored; with the write for rule index 1 failing, exactly the
writes for rules 0 and 1 were issued and the call fails with the store
untouched. -/
theorem applyPolicy_rule_order_wit :
    (applyPolicy true sampleDevOk samplePolicy emptyStore =
      ⟨samplePolicy.rules.map generatePolicyOids, true,
       fun pid => if pid = samplePolicy.id then some samplePolicy else emptyStore pid,
       some (fun pid => if pid = samplePolicy.id then some samplePolicy else emptyStore pid),
       ["policyApplied " ++ samplePolicy.id]⟩) ∧
    (applyPolicy true sampleDevFail1 samplePolicy emptyStore =
      ⟨(samplePolicy.rules.take 2).map generatePolicyOids, false, emptyStore, none, []⟩) :=
  ⟨(applyPolicy_rule_order sampleDevOk samplePolicy emptyStore).1 (fun _ _ => rfl),
   (applyPolicy_rule_order sampleDevFail1 samplePolicy emptyStore).2 1 (by decide) (by decide)
     (by decide)⟩

/-! ## Claim C2 -/

/-- Claim C2 counterexample: after exactly 5 consecutive failing connect
attempts the manager HAS scheduled another automatic attempt (the 6th,
pending after the fixed 5-second delay) and has emitted no terminal error
event — contrary to the claim that the 6th attempt does not occur and the
terminal error has fired. -/
theorem sixth_attempt_scheduled_cex :
    (failStreak 5).pendingRetryDelay = some reconnectDelay ∧ (failStreak 5).errorEvents = 0 := by
  decide

/-- Claim C2 (amended): every connect failure increments the counter, and
while the counter is at or below the maximum of 5 another attempt is
scheduled after the fixed 5-second delay — so after exactly 5 consecutive
failures a 6th automatic attempt IS scheduled; it is after exactly 6
consecutive failures that no further attempt is scheduled and the
terminal error event has fired exactly once; the counter resets to zero
on any successful connect of a disconnected manager. -/
theorem retry_policy_spec :
    (∀ s : RMState, s.isConnected = false →
      (connectStep false s).reconnectAttempts = s.reconnectAttempts + 1) ∧
    (∀ s : RMState, s.isConnected = false →
      s.reconnectAttempts + 1 ≤ maxReconnectAttempts →
      (connectStep false s).pendingRetryDelay = some reconnectDelay ∧
      (connectStep false s).errorEvents = s.errorEvents) ∧
    (∀ n : Nat, 1 ≤ n → n ≤ 5 →
      failStreak n =
        { isConnected := false, reconnectAttempts := n,
          pendingRetryDelay := some reconnectDelay, errorEvents := 0 }) ∧
    (failStreak 6 =
      { isConnected := false, reconnectAttempts := 6, pendingRetryDelay := none,
        errorEvents := 1 }) ∧
    (∀ s : RMState, s.isConnected = false →
      connectStep true s =
        { isConnected := true, reconnectAttempts := 0, pendingRetryDelay := none,
          errorEvents := s.errorEvents }) := by
  refine ⟨?_, ?_, ?_, ?_, ?_⟩
  · intro s h
    by_cases hle : s.reconnectAttempts + 1 ≤ maxReconnectAttempts <;>
      simp [connectStep, handleConnectionError, h, hle]
  · intro s h hle
    refine ⟨?_, ?_⟩ <;> simp [connectStep, handleConnectionError, h, hle]
  · intro n h1 h5
    interval_cases n <;> decide
  · decide
  · intro s h
    simp [connectStep, h]

/-- Witness for the amended C2: three consecutive failures leave a
scheduled retry and no terminal error. -/
theorem retry_policy_spec_wit :
    failStreak 3 =
      { isConnected := false, reconnectAttempts := 3,
        pendingRetryDelay := some reconnectDelay, errorEvents := 0 } :=
  retry_policy_spec.2.2.1 3 (by decide) (by decide)

/-! ## Claim C9 -/

/-- Claim C9 counterexample: an anomaly with confidence 0.95 (above the
block tier) whose device-stats fetch fails produces NO router action at
all (and no anomaly event): the stats fetch shares the response path's
try/catch, so its failure blocks the response action. -/
theorem stats_failure_blocks_response_cex :
    handleAnomaly false true (19/20) (some "10.0.0.5") = ([], []) := rfl

/-- Claim C9 (amended): the device-stats fetch is not best-effort — when
it fails the error is caught and neither response action nor anomaly
event happens; when it succeeds the response is selected by tier as
claimed: block the source address when confidence > 0.9, apply the 1 Mbps
bandwidth limit when confidence is in (0.8, 0.9]. -/
theorem stats_failure_gates_response :
    (∀ (actionOk : Bool) (c : ℚ) (ip : Option String),
      handleAnomaly false actionOk c ip = ([], [])) ∧
    (∀ (actionOk : Bool) (c : ℚ) (ip : Option String), c > 9/10 →
      (handleAnomaly true actionOk c ip).1 = [RouterAction.blockIP ip]) ∧
    (∀ (actionOk : Bool) (c : ℚ) (ip : Option String), c > 8/10 → ¬(c > 9/10) →
      (handleAnomaly true actionOk c ip).1 = [RouterAction.setBandwidthLimit ip 1]) := by
  refine ⟨?_, ?_, ?_⟩
  · intro actionOk c ip
    rfl
  · intro actionOk c ip h
    simp [handleAnomaly, h]
    cases actionOk <;> simp
  · intro actionOk c ip h8 h9
    simp [handleAnomaly, h8, h9]
    cases actionOk <;> simp

/-- Witness for the amended C9: both tiers at concrete confidences. -/
theorem stats_failure_gates_response_wit :
    (handleAnomaly true true (19/20) (some "10.0.0.7")).1 =
      [RouterAction.blockIP (some "10.0.0.7")] ∧
    (handleAnomaly true true (17/20) (some "10.0.0.7")).1 =
      [RouterAction.setBandwidthLimit (some "10.0.0.7") 1] :=
  ⟨stats_failure_gates_response.2.1 true (19/20) (some "10.0.0.7") (by norm_num),
   stats_failure_gates_response.2.2 true (17/20) (some "10.0.0.7") (by norm_num) (by norm_num)⟩

/-! ## Claim C10 -/

/-- Claim C10: with the default threshold 0.8, a score with `isAnomaly`
and confidence exactly 0.8 triggers the anomaly handler (the `≥ threshold`
comparison passes) and, with the stats fetch succeeding, emits the
anomaly event — but invokes neither the block action nor the
bandwidth-limit action, since both tiers require confidence strictly
greater than 0.8. -/
theorem boundary_confidence_no_action :
    ∀ (ip : Option String) (actionOk : Bool) (ct dt : String),
      handlePacket (some { isAnomaly := true, confidence := 8/10, ctype := ct, details := dt })
        defaultAnomalyThreshold true actionOk ip =
        some ([], [OrchEvent.anomaly (8/10) ip]) := by
  intro ip actionOk ct dt
  norm_num [handlePacket, defaultAnomalyThreshold, handleAnomaly]
